import Mathlib

/-!
# Verification of the flugzeug-server core services

A shallow embedding of the core of the flugzeug-server repository:
the `FlugzeugReadService`, the `FlugzeugWriteService` and the
`QueryBuilder` (criteria compiler), together with proofs of the
behavioural properties stated in the specification.

The embedding models the relational storage as explicit lists of rows
(`DB`), the TypeORM query builder as a list of bound-parameter clauses
(`Clause`), and each service method as a pure function from a `DB` to an
`Except Err` result (exceptions thrown by the TypeScript code become
`Err` values).
-/

set_option autoImplicit false

namespace Flugzeugserver

/-- A scalar criterion / column value (string, integer or boolean),
mirroring the JS values that flow through `Suchkriterien`. -/
inductive Value where
  | str (s : String)
  | int (n : Int)
  | bool (b : Bool)
deriving DecidableEq, Repr

/-- A persisted `flugzeug` row: the scalar columns of the `Flugzeug`
entity (id, version, preis, einsatzbereit, baujahr).  `baujahr` is the
optional date-string column. -/
structure FlugzeugRow where
  id : Nat
  version : Nat
  preis : Int
  einsatzbereit : Bool
  baujahr : Option String
deriving DecidableEq, Repr

/-- A persisted `modell` row with its foreign key to the owning
`flugzeug` row (1:1 relation realised by a foreign key). -/
structure ModellRow where
  id : Nat
  modell : String
  flugzeugId : Nat
deriving DecidableEq, Repr

/-- A persisted `sitzplatz` row with its foreign key to the owning
`flugzeug` row (1:N relation realised by a foreign key). -/
structure SitzplatzRow where
  id : Nat
  sitzplatzklasse : String
  flugzeugId : Nat
deriving DecidableEq, Repr

/-- The relational store: the three tables the services touch. -/
structure DB where
  flugzeugRows : List FlugzeugRow
  modellRows : List ModellRow
  sitzplatzRows : List SitzplatzRow
deriving DecidableEq, Repr

/-- The error signals raised by the services; each constructor mirrors a
distinct exception (or distinct `NotFoundException` message) of the
source:
`notFoundId` = `NotFoundException` for a missing / undefined id,
`invalidCriteria` = `NotFoundException('Ungueltige Suchkriterien')`,
`noResults` = `NotFoundException('Keine Flugzeuge gefunden: ...')` with
the criteria, `queryFailed` = a storage-layer error for a generated SQL
condition on a nonexistent column, `versionInvalid` =
`VersionInvalidException`, `versionOutdated` = `VersionOutdatedException`. -/
inductive Err where
  | notFoundId (id : Option Nat)
  | invalidCriteria
  | noResults (criteria : List (String × Value))
  | queryFailed (column : String)
  | versionInvalid (token : String)
  | versionOutdated (version : Nat)
deriving DecidableEq, Repr

/-- Search criteria: the `Suchkriterien` object as an association list
of JS object keys to values, in insertion order (JS objects preserve the
insertion order of string keys). -/
def Criteria : Type := List (String × Value)

instance : DecidableEq Criteria := by
  unfold Criteria
  infer_instance

instance {e a : Type} [DecidableEq e] [DecidableEq a] : DecidableEq (Except e a) :=
  fun x y =>
    match x, y with
    | Except.ok u, Except.ok v => decidable_of_iff (u = v) (by simp)
    | Except.error u, Except.error v => decidable_of_iff (u = v) (by simp)
    | Except.ok _, Except.error _ => isFalse (by simp)
    | Except.error _, Except.ok _ => isFalse (by simp)

/-- The keys of a criteria object, in order (`Object.keys`). -/
def criteriaKeys (c : Criteria) : List String := c.map Prod.fst

/-- Modelled from the spec: the declared properties of the `Flugzeug`
entity class (the file `flugzeug.entity.ts` itself is not among the
provided sources; the property list follows the spec's data model for
Aircraft — identifier, version, price, operational-flag,
manufacture-year, creation timestamp, last-modified timestamp, the owned
Model and the owned Seats — with the field names used throughout the
provided controllers, which construct `Flugzeug` objects with exactly
these nine fields).  `FlugzeugReadService.#flugzeugProps` is
`Object.getOwnPropertyNames(new Flugzeug())`, i.e. this list. -/
def flugzeugProps : List String :=
  ["id", "version", "preis", "einsatzbereit", "baujahr",
   "erzeugt", "aktualisiert", "modell", "sitzplaetze"]

/-- `FlugzeugReadService.#checkKeys`: every search key must be a
property of `Flugzeug`, or one of the literal keys `javascript` /
`typescript`. -/
def checkKeys (keys : List String) : Bool :=
  keys.all fun key =>
    flugzeugProps.contains key || key == "javascript" || key == "typescript"

/-- How a clause is attached to the query: `.where(...)` for the first
qualifying predicate, `.andWhere(...)` for every subsequent one. -/
inductive Connective where
  | whereC
  | andWhereC
deriving DecidableEq, Repr

/-- The SQL comparison operator of a generated clause. -/
inductive Operator where
  | ilike
  | like
  | eq
deriving DecidableEq, Repr

/-- One generated, parameter-bound condition
`<tableAlias>.<column> <op> :<paramName>` with the bound value
`paramValue` (the source always passes values through a parameter
object, never by string concatenation). -/
structure Clause where
  conn : Connective
  tableAlias : String
  column : String
  op : Operator
  paramName : String
  paramValue : Value
deriving DecidableEq, Repr

/-- `QueryBuilder.#flugzeugAlias`: the class name with its first letter
lowercased. -/
def flugzeugAlias : String := "flugzeug"

/-- `QueryBuilder.#modellAlias`: the class name with its first letter
lowercased. -/
def modellAlias : String := "modell"

/-- The equality clauses generated by the `Object.keys(props).forEach`
loop of `QueryBuilder.build`: the first one uses `where` when no clause
was attached before the loop (`useWhere`), every later one `andWhere`. -/
def propClauses : List (String × Value) → Bool → List Clause
  | [], _ => []
  | (key, v) :: rest, useWhere =>
      { conn := if useWhere then Connective.whereC else Connective.andWhereC,
        tableAlias := flugzeugAlias, column := key, op := Operator.eq,
        paramName := key, paramValue := v } :: propClauses rest false

/-- `QueryBuilder.build({ modell, ...props })` for the backing engine
`dbt` (`typeOrmModuleOptions.type`): when the destructured `modell`
criterion is present and a string, a substring predicate
`modell.modell ilike/like :modell` with bound value `%value%` is
attached first with `where` (`ilike` exactly when the engine is
`postgres`); all remaining keys become equality predicates on the
`flugzeug` alias. -/
def build (dbt : String) (criteria : Criteria) : List Clause :=
  let props := criteria.filter fun p => p.1 ≠ "modell"
  match criteria.lookup "modell" with
  | some (Value.str s) =>
      { conn := Connective.whereC, tableAlias := modellAlias,
        column := "modell",
        op := if dbt = "postgres" then Operator.ilike else Operator.like,
        paramName := "modell", paramValue := Value.str ("%" ++ s ++ "%") }
        :: propClauses props false
  | _ => propClauses props true

/-- A result row of the `flugzeug`–`modell` inner join
(`innerJoinAndSelect`). -/
structure JoinedRow where
  flugzeug : FlugzeugRow
  modell : ModellRow
deriving DecidableEq, Repr

/-- The inner join of the `flugzeug` table with the `modell` table along
the foreign key (every query of the read path starts from this join). -/
def joinModell (db : DB) : List JoinedRow :=
  db.flugzeugRows.filterMap fun f =>
    (db.modellRows.find? fun m => m.flugzeugId == f.id).map fun m =>
      { flugzeug := f, modell := m }

/-- The value of a scalar column of the `flugzeug` table, `none` for a
name that is not a column of the table. -/
def fieldValue (f : FlugzeugRow) (column : String) : Option Value :=
  if column = "id" then some (Value.int f.id)
  else if column = "version" then some (Value.int f.version)
  else if column = "preis" then some (Value.int f.preis)
  else if column = "einsatzbereit" then some (Value.bool f.einsatzbereit)
  else if column = "baujahr" then f.baujahr.map Value.str
  else none

/-- The scalar columns of the `flugzeug` table. -/
def flugzeugColumns : List String :=
  ["id", "version", "preis", "einsatzbereit", "baujahr"]

/-- Whether a generated condition refers to an existing column; a clause
on a nonexistent column makes the database reject the whole statement. -/
def clauseResolvable (c : Clause) : Bool :=
  if c.tableAlias = modellAlias then c.column == "modell"
  else flugzeugColumns.contains c.column

/-- Substring test on character lists (`needle` occurs inside
`haystack`). -/
def isSubstring (needle : List Char) : List Char → Bool
  | [] => needle.isEmpty
  | c :: t => needle.isPrefixOf (c :: t) || isSubstring needle t

/-- SQL `LIKE`/`ILIKE` with a `%value%` pattern (the only pattern shape
the source generates): strip the enclosing percent signs and test for a
substring, lowercasing both sides for `ILIKE`. -/
def evalLike (insensitive : Bool) (pattern s : String) : Bool :=
  let inner := (pattern.data.drop 1).dropLast
  if insensitive then
    isSubstring (inner.map Char.toLower) (s.data.map Char.toLower)
  else
    isSubstring inner s.data

/-- Evaluate one generated clause on a joined row. -/
def evalClause (r : JoinedRow) (c : Clause) : Bool :=
  if c.tableAlias = modellAlias then
    match c.op, c.paramValue with
    | Operator.ilike, Value.str p => evalLike true p r.modell.modell
    | Operator.like, Value.str p => evalLike false p r.modell.modell
    | _, _ => false
  else
    match c.op with
    | Operator.eq => fieldValue r.flugzeug c.column == some c.paramValue
    | _ => false

/-- Execute a compiled query (`getMany`): the statement fails when some
clause refers to a nonexistent column, otherwise it returns the joined
rows satisfying the conjunction of all clauses. -/
def runQuery (clauses : List Clause) (db : DB) : Except Err (List JoinedRow) :=
  match clauses.find? fun c => !clauseResolvable c with
  | some c => Except.error (Err.queryFailed c.column)
  | none =>
      Except.ok ((joinModell db).filter fun r => clauses.all (evalClause r))

/-- `FlugzeugReadService.find(suchkriterien?)`: `none` models the
`undefined` argument.  Undefined or key-less criteria run the
unfiltered query; otherwise the keys are validated (`checkKeys`) and a
zero-row result of the compiled query is turned into a
`NotFoundException` carrying the criteria. -/
def find (dbt : String) (criteria? : Option Criteria) (db : DB) :
    Except Err (List JoinedRow) :=
  match criteria? with
  | none => runQuery (build dbt []) db
  | some criteria =>
      if (criteriaKeys criteria).length = 0 then
        runQuery (build dbt criteria) db
      else if !checkKeys (criteriaKeys criteria) then
        Except.error Err.invalidCriteria
      else
        match runQuery (build dbt criteria) db with
        | Except.error e => Except.error e
        | Except.ok flugzeuge =>
            if flugzeuge.length = 0 then
              Except.error (Err.noResults criteria)
            else Except.ok flugzeuge

/-- A `Flugzeug` entity as loaded by `findById`: the row, the eagerly
inner-joined `Modell` and, when requested, the left-joined seats. -/
structure Geladen where
  flugzeug : FlugzeugRow
  modell : Option ModellRow
  sitzplaetze : Option (List SitzplatzRow)
deriving DecidableEq, Repr

/-- `FlugzeugReadService.findById({ id, mitSitzplaetze })`: runs the
by-id builder (inner join with `modell`, optional left join with
`sitzplatz`, `where flugzeug.id = :id`, `getOne`) and throws
`NotFoundException` when no row comes back. -/
def findById (i : Nat) (mitSitzplaetze : Bool) (db : DB) : Except Err Geladen :=
  match (joinModell db).find? fun r => r.flugzeug.id == i with
  | none => Except.error (Err.notFoundId (some i))
  | some r =>
      Except.ok
        { flugzeug := r.flugzeug, modell := some r.modell,
          sitzplaetze :=
            if mitSitzplaetze then
              some (db.sitzplatzRows.filter fun s => s.flugzeugId == i)
            else none }

/-- `FlugzeugWriteService.VERSION_PATTERN.test(versionStr)` for the
regular expression `/^"\d{1,3}"/u`: the string must *begin* with an
opening quote, one to three ASCII digits and a closing quote (the
pattern is anchored only at the start, so trailing characters after the
closing quote are allowed by the test). -/
def versionPatternTest (s : String) : Bool :=
  match s.data with
  | c0 :: c1 :: rest1 =>
      c0 == '"' && c1.isDigit &&
        match rest1 with
        | c2 :: rest2 =>
            c2 == '"' ||
              (c2.isDigit &&
                match rest2 with
                | c3 :: rest3 =>
                    c3 == '"' ||
                      (c3.isDigit &&
                        match rest3 with
                        | c4 :: _ => c4 == '"'
                        | [] => false)
                | [] => false)
        | [] => false
  | _ => false

/-- The numeric value of an ASCII digit. -/
def digitVal (c : Char) : Nat := c.toNat - '0'.toNat

/-- Accumulate the maximal leading run of ASCII digits. -/
def parseDigits : List Char → Nat → Nat
  | c :: rest, acc =>
      if c.isDigit then parseDigits rest (acc * 10 + digitVal c) else acc
  | [], acc => acc

/-- `Number.parseInt(s, 10)` restricted to the inputs the service feeds
it (no leading whitespace or sign occurs after the pattern test): the
value of the maximal leading digit run, `none` for `NaN`. -/
def parseInt10 (cs : List Char) : Option Nat :=
  match cs with
  | c :: _ => if c.isDigit then some (parseDigits cs 0) else none
  | [] => none

/-- `versionStr.slice(1, -1)` on the character list: drop the first and
the last character. -/
def sliceInner (s : String) : List Char := (s.data.drop 1).dropLast

/-- `FlugzeugWriteService.#validateUpdate(flugzeug, id, versionStr)`:
test the version pattern (`VersionInvalidException` on failure), parse
the inner slice as a base-10 integer, fetch the current row by id
(`NotFoundException` when absent) and throw `VersionOutdatedException`
when the parsed version is strictly less than the persisted one;
otherwise return the fetched entity.  A `NaN` parse (unreachable after
the pattern test) compares as false in JS and therefore proceeds. -/
def validateUpdate (i : Nat) (versionStr : String) (db : DB) :
    Except Err Geladen :=
  if !versionPatternTest versionStr then
    Except.error (Err.versionInvalid versionStr)
  else
    match findById i false db with
    | Except.error e => Except.error e
    | Except.ok flugzeugDb =>
        match parseInt10 (sliceInner versionStr) with
        | none => Except.ok flugzeugDb
        | some version =>
            if version < flugzeugDb.flugzeug.version then
              Except.error (Err.versionOutdated version)
            else Except.ok flugzeugDb

/-- The patch handed to `update`: the root-level scalar fields, each
present (`some`) or absent (`none`, i.e. `undefined`).  The callers
(`#flugzeugDtoOhneRefToFlugzeug` in the REST controller and
`#flugzeugUpdateDtoToFlugzeug` in the GraphQL resolver) always build the
patch with `id`, `version`, `modell`, `sitzplaetze` and `erzeugt` set to
`undefined`, so only these scalars can carry data. -/
structure Patch where
  preis : Option Int
  einsatzbereit : Option Bool
  baujahr : Option String
deriving DecidableEq, Repr

/-- Modelled from the spec: the storage layer's `repo.merge` +
`repo.save` step of `update` (TypeORM is the out-of-scope storage
collaborator).  Per the spec, the merge writes only the patch's present
scalar fields onto the fetched entity — absent fields retain their prior
committed values — and the storage assigns the incremented version at
commit; relations are not touched because the patch carries none. -/
def mergeSave (dbRow : FlugzeugRow) (patch : Patch) : FlugzeugRow :=
  { id := dbRow.id,
    version := dbRow.version + 1,
    preis := patch.preis.getD dbRow.preis,
    einsatzbereit := patch.einsatzbereit.getD dbRow.einsatzbereit,
    baujahr :=
      match patch.baujahr with
      | some b => some b
      | none => dbRow.baujahr }

/-- `FlugzeugWriteService.update({ id, flugzeug, version })`: throws
`NotFoundException` for an undefined id, validates (`#validateUpdate`),
merges the patch onto the fetched entity, saves, and returns the new
version of the saved row together with the updated store. -/
def update (id? : Option Nat) (patch : Patch) (version : String) (db : DB) :
    Except Err (Nat × DB) :=
  match id? with
  | none => Except.error (Err.notFoundId none)
  | some i =>
      match validateUpdate i version db with
      | Except.error e => Except.error e
      | Except.ok flugzeugDb =>
          let saved := mergeSave flugzeugDb.flugzeug patch
          let db' : DB :=
            { db with
                flugzeugRows :=
                  db.flugzeugRows.map fun r => if r.id == i then saved else r }
          Except.ok (saved.version, db')

/-- One row-deletion statement issued inside the delete transaction. -/
inductive DeleteOp where
  | delModell (id : Nat)
  | delSitzplatz (id : Nat)
  | delFlugzeug (id : Nat)
deriving DecidableEq, Repr

/-- Execute one deletion statement: remove the rows of the addressed
table whose primary key matches, and report the number of affected
rows. -/
def applyOp (db : DB) : DeleteOp → DB × Nat
  | DeleteOp.delModell mid =>
      ({ db with modellRows := db.modellRows.filter fun m => m.id ≠ mid },
        (db.modellRows.filter fun m => m.id = mid).length)
  | DeleteOp.delSitzplatz sid =>
      ({ db with sitzplatzRows := db.sitzplatzRows.filter fun s => s.id ≠ sid },
        (db.sitzplatzRows.filter fun s => s.id = sid).length)
  | DeleteOp.delFlugzeug fid =>
      ({ db with flugzeugRows := db.flugzeugRows.filter fun f => f.id ≠ fid },
        (db.flugzeugRows.filter fun f => f.id = fid).length)

/-- One step of the delete transaction: run the statement on the current
store and remember its affected-count. -/
def deleteStep (acc : DB × Option Nat) (op : DeleteOp) : DB × Option Nat :=
  ((applyOp acc.1 op).1, some (applyOp acc.1 op).2)

/-- Execute a sequence of deletion statements inside one transaction,
returning the final store and the affected-count of the last statement
(`deleteResult` is only assigned by the final `delete(Flugzeug, id)`
statement, which is always the last one issued). -/
def applyOps (db : DB) (ops : List DeleteOp) : DB × Option Nat :=
  ops.foldl deleteStep (db, none)

/-- The deletion statements `FlugzeugWriteService.delete` issues for a
loaded entity, in source order: the `Modell` row (when its id is
defined), then each loaded `Sitzplatz` row, then the `Flugzeug` row. -/
def deleteOps (g : Geladen) (i : Nat) : List DeleteOp :=
  (match g.modell with
   | some m => [DeleteOp.delModell m.id]
   | none => []) ++
  ((g.sitzplaetze.getD []).map fun s => DeleteOp.delSitzplatz s.id) ++
  [DeleteOp.delFlugzeug i]

/-- `FlugzeugWriteService.delete(id)`: load the entity with seats
eagerly (`findById` throws `NotFoundException` when absent), run the
deletion statements in one transaction, and return whether the final
`Flugzeug` deletion affected more than zero rows.  The issued statement
list is returned alongside for inspection of the order. -/
def delete (i : Nat) (db : DB) : Except Err (Bool × DB × List DeleteOp) :=
  match findById i true db with
  | Except.error e => Except.error e
  | Except.ok flugzeug =>
      let ops := deleteOps flugzeug i
      let result := applyOps db ops
      Except.ok
        (match result.2 with
         | some n => decide (n > 0)
         | none => false,
         result.1, ops)

/-- The spec's version-token wire format, formalised from the spec's
words: a string of the exact shape `"<1-3 ASCII digits>"`, the quotes
being literal characters of the token and nothing else in the string. -/
def exactVersionShape (s : String) : Bool :=
  match s.data with
  | c :: rest =>
      c == '"' && rest.getLast? == some '"' &&
        decide (1 ≤ rest.dropLast.length) && decide (rest.dropLast.length ≤ 3) &&
        rest.dropLast.all Char.isDigit
  | [] => false

/-- The shape the anchored-at-start-only regular expression actually
requires, stated independently of the source's match structure: the
token *begins* with an opening quote, one to three ASCII digits and a
closing quote, followed by an arbitrary (possibly empty) remainder. -/
def StartsWithQuotedVersion (s : String) : Prop :=
  ∃ ds tail, s.data = '"' :: (ds ++ '"' :: tail) ∧
    1 ≤ ds.length ∧ ds.length ≤ 3 ∧ ∀ c ∈ ds, c.isDigit

/-- A store with one aircraft (id 1, version 0), its model and two
seats, used as the concrete input of witnesses and counterexamples. -/
def exampleDb : DB :=
  { flugzeugRows :=
      [{ id := 1, version := 0, preis := 100, einsatzbereit := true,
         baujahr := some "2022-02-28" }],
    modellRows := [{ id := 10, modell := "Alpha", flugzeugId := 1 }],
    sitzplatzRows :=
      [{ id := 21, sitzplatzklasse := "Klasse 1", flugzeugId := 1 },
       { id := 22, sitzplatzklasse := "Klasse 2", flugzeugId := 1 }] }

/-- Like `exampleDb` but with the aircraft already at version 5. -/
def exampleDb5 : DB :=
  { flugzeugRows :=
      [{ id := 1, version := 5, preis := 100, einsatzbereit := true,
         baujahr := some "2022-02-28" }],
    modellRows := [{ id := 10, modell := "Alpha", flugzeugId := 1 }],
    sitzplatzRows := [] }

/-- A patch with no field present. -/
def patchEmpty : Patch := { preis := none, einsatzbereit := none, baujahr := none }

/-! ## Supporting lemmas -/

theorem build_nil (dbt : String) : build dbt [] = [] := rfl

theorem runQuery_nil (db : DB) : runQuery [] db = Except.ok (joinModell db) := by
  simp [runQuery, List.filter_true]

theorem criteriaKeys_eq_nil {c : Criteria} (h : criteriaKeys c = []) : c = [] := by
  unfold criteriaKeys at h
  exact List.map_eq_nil_iff.mp h

theorem checkKeys_iff (keys : List String) :
    checkKeys keys = true ↔
      ∀ k ∈ keys, k ∈ flugzeugProps ∨ k = "javascript" ∨ k = "typescript" := by
  simp [checkKeys, List.all_eq_true, or_assoc]

theorem runQuery_error_inv {cs : List Clause} {db : DB} {e : Err}
    (h : runQuery cs db = Except.error e) : ∃ col, e = Err.queryFailed col := by
  unfold runQuery at h
  split at h
  · rename_i c hc
    exact ⟨c.column, ((Except.error.injEq _ _).mp h).symm⟩
  · exact absurd h (by simp)

theorem findById_error_inv {i : Nat} {mz : Bool} {db : DB} {e : Err}
    (h : findById i mz db = Except.error e) : e = Err.notFoundId (some i) := by
  unfold findById at h
  split at h
  · exact ((Except.error.injEq _ _).mp h).symm
  · exact absurd h (by simp)

theorem findById_ok_inv {i : Nat} {mz : Bool} {db : DB} {g : Geladen}
    (h : findById i mz db = Except.ok g) :
    ∃ r, (joinModell db).find? (fun r => r.flugzeug.id == i) = some r ∧
      g.flugzeug = r.flugzeug ∧ g.modell = some r.modell ∧
      g.sitzplaetze =
        (if mz then some (db.sitzplatzRows.filter fun s => s.flugzeugId == i)
         else none) := by
  unfold findById at h
  split at h
  · exact absurd h (by simp)
  · rename_i r hr
    refine ⟨r, hr, ?_⟩
    have hg := (Except.ok.injEq _ _).mp h
    subst hg
    exact ⟨rfl, rfl, rfl⟩

theorem find_validated (dbt : String) (db : DB) (criteria : Criteria)
    (hlen : ¬(criteriaKeys criteria).length = 0)
    (hchk : checkKeys (criteriaKeys criteria) = true) :
    find dbt (some criteria) db =
      match runQuery (build dbt criteria) db with
      | Except.error e => Except.error e
      | Except.ok flugzeuge =>
          if flugzeuge.length = 0 then Except.error (Err.noResults criteria)
          else Except.ok flugzeuge := by
  simp [find, hlen, hchk]

theorem propClauses_false_conn (props : List (String × Value)) :
    ∀ c ∈ propClauses props false, c.conn = Connective.andWhereC := by
  induction props with
  | nil => simp [propClauses]
  | cons p rest ih =>
      intro c hc
      rw [propClauses] at hc
      rcases List.mem_cons.mp hc with rfl | hc
      · rfl
      · exact ih c hc

/-! ## Claims -/

/-- C9: `find({})` and `find(undefined)` are equivalent: for every
storage state both return the full unfiltered aircraft collection,
joined with its model, and the compiled query carries no predicate. -/
theorem C9_find_empty_equiv (dbt : String) (db : DB) :
    find dbt none db = find dbt (some []) db ∧
      find dbt none db = Except.ok (joinModell db) ∧
      build dbt [] = [] := by
  refine ⟨?_, ?_, rfl⟩
  · simp [find, criteriaKeys]
  · simp [find, build_nil, runQuery_nil]

/-- C10: with undefined criteria or criteria without keys, `find` never
raises: it returns whatever the unfiltered query yields, including the
empty list when the store holds no aircraft — the zero-rows-is-an-error
rule lives only on the non-empty-criteria branch. -/
theorem C10_empty_criteria_no_error (dbt : String) (db : DB) (criteria : Criteria)
    (hk : criteriaKeys criteria = []) :
    (∃ l, find dbt (some criteria) db = Except.ok l) ∧
      (∃ l, find dbt none db = Except.ok l) ∧
      (db.flugzeugRows = [] → find dbt (some criteria) db = Except.ok []) := by
  have hc : criteria = [] := criteriaKeys_eq_nil hk
  subst hc
  refine ⟨⟨joinModell db, ?_⟩, ⟨joinModell db, ?_⟩, fun hempty => ?_⟩
  · simp [find, criteriaKeys, build_nil, runQuery_nil]
  · simp [find, build_nil, runQuery_nil]
  · have hj : joinModell db = [] := by simp [joinModell, hempty]
    simp [find, criteriaKeys, build_nil, runQuery_nil, hj]

/-- C10 witness: the empty criteria object on a concrete store, and the
empty store yielding the empty list without an error. -/
theorem C10_witness :
    criteriaKeys ([] : Criteria) = [] ∧
      ((∃ l, find "postgres" (some ([] : Criteria))
          { flugzeugRows := [], modellRows := [], sitzplatzRows := [] } =
            Except.ok l) ∧
        (∃ l, find "postgres" none
            { flugzeugRows := [], modellRows := [], sitzplatzRows := [] } =
              Except.ok l) ∧
        (DB.flugzeugRows
              { flugzeugRows := [], modellRows := [], sitzplatzRows := [] } = [] →
          find "postgres" (some ([] : Criteria))
              { flugzeugRows := [], modellRows := [], sitzplatzRows := [] } =
            Except.ok [])) :=
  ⟨rfl, C10_empty_criteria_no_error "postgres"
    { flugzeugRows := [], modellRows := [], sitzplatzRows := [] } [] rfl⟩

/-- C3 counterexample: the key `javascript` is not a declared property
of the `Flugzeug` entity, yet `#checkKeys` accepts it (the allow-list
also contains the literal template keys `javascript` and `typescript`),
so `find` does not fail at validation — the compiled query is executed
and fails at the storage layer for the nonexistent column, which
contradicts the claimed fail-with-NotFound-before-any-query for every
unknown key. -/
theorem C3_counterexample :
    checkKeys ["javascript"] = true ∧
      flugzeugProps.contains "javascript" = false ∧
      find "postgres" (some [("javascript", Value.bool true)]) exampleDb =
        Except.error (Err.queryFailed "javascript") := by
  exact ⟨by decide, by decide, by decide⟩

/-- C3 (amended): the allow-list accepted by key validation is the set
of declared `Flugzeug` properties extended by the two literal keys
`javascript` and `typescript`; any criteria mapping containing a key
outside this extended allow-list makes `find` fail with the
NotFound-class `Ungueltige Suchkriterien` error before any query runs,
and a mapping whose keys all lie inside the extended allow-list passes
validation. -/
theorem C3_allowlist_validation (dbt : String) (db : DB) (criteria : Criteria)
    (hne : criteria ≠ []) :
    ((∃ k ∈ criteriaKeys criteria,
        k ∉ flugzeugProps ∧ k ≠ "javascript" ∧ k ≠ "typescript") →
      find dbt (some criteria) db = Except.error Err.invalidCriteria) ∧
    ((∀ k ∈ criteriaKeys criteria,
        k ∈ flugzeugProps ∨ k = "javascript" ∨ k = "typescript") →
      find dbt (some criteria) db ≠ Except.error Err.invalidCriteria) := by
  have hlen : ¬(criteriaKeys criteria).length = 0 := by
    simp only [List.length_eq_zero]
    intro h
    exact hne (criteriaKeys_eq_nil h)
  constructor
  · rintro ⟨k, hk, hnp, hj, ht⟩
    have hchk : checkKeys (criteriaKeys criteria) = false := by
      rw [Bool.eq_false_iff]
      intro habs
      rcases (checkKeys_iff _).mp habs k hk with h | h | h
      · exact hnp h
      · exact hj h
      · exact ht h
    simp [find, hlen, hchk]
  · intro hall
    have hchk : checkKeys (criteriaKeys criteria) = true :=
      (checkKeys_iff _).mpr hall
    rw [find_validated dbt db criteria hlen hchk]
    split
    · rename_i e he
      obtain ⟨col, rfl⟩ := runQuery_error_inv he
      simp
    · split <;> simp

/-- C3 witness: a genuinely unknown key is still rejected with the
NotFound-class validation error, per the amended claim. -/
theorem C3_witness :
    ([(("unknownField" : String), Value.int 3)] : Criteria) ≠ [] ∧
      find "postgres" (some [("unknownField", Value.int 3)]) exampleDb =
        Except.error Err.invalidCriteria :=
  ⟨by decide,
    (C3_allowlist_validation "postgres" exampleDb
        [("unknownField", Value.int 3)] (by decide)).1
      ⟨"unknownField", by decide, by decide, by decide, by decide⟩⟩

/-- C6: whenever the criteria mapping carries the `modell` field with a
string value, the compiled clause list starts with the substring
predicate `%value%` on the joined model's name column, bound as a
parameter, attached with `where`, using `ilike` exactly for the
`postgres` engine and plain `like` otherwise; every subsequent clause is
attached with `andWhere`. -/
theorem C6_modell_clause (dbt : String) (criteria : Criteria) (s : String)
    (h : criteria.lookup "modell" = some (Value.str s)) :
    (build dbt criteria).head? = some
      { conn := Connective.whereC, tableAlias := modellAlias,
        column := "modell",
        op := if dbt = "postgres" then Operator.ilike else Operator.like,
        paramName := "modell", paramValue := Value.str ("%" ++ s ++ "%") } ∧
    ∀ c ∈ (build dbt criteria).tail, c.conn = Connective.andWhereC := by
  unfold build
  rw [h]
  exact ⟨rfl, propClauses_false_conn _⟩

/-- C6 witness: a concrete criteria object with the `modell` field and a
further field, compiled for `postgres`. -/
theorem C6_witness :
    (([("modell", Value.str "a"), ("preis", Value.int 5)] : Criteria).lookup
        "modell" = some (Value.str "a")) ∧
      ((build "postgres" [("modell", Value.str "a"), ("preis", Value.int 5)]).head? =
          some
            { conn := Connective.whereC, tableAlias := modellAlias,
              column := "modell",
              op := if "postgres" = "postgres" then Operator.ilike
                    else Operator.like,
              paramName := "modell", paramValue := Value.str ("%" ++ "a" ++ "%") } ∧
        ∀ c ∈ (build "postgres"
            [("modell", Value.str "a"), ("preis", Value.int 5)]).tail,
          c.conn = Connective.andWhereC) :=
  ⟨rfl, C6_modell_clause "postgres" [("modell", Value.str "a"), ("preis", Value.int 5)]
    "a" rfl⟩

/-- C7: on the non-empty, validated criteria branch a zero-row query
result is turned into the NotFound-class error carrying the criteria,
and a successful `find` with non-empty criteria never returns the empty
list. -/
theorem C7_zero_rows_not_found (dbt : String) (db : DB) (criteria : Criteria)
    (l : List JoinedRow) (hne : criteria ≠ []) :
    (checkKeys (criteriaKeys criteria) = true →
      runQuery (build dbt criteria) db = Except.ok [] →
      find dbt (some criteria) db = Except.error (Err.noResults criteria)) ∧
    (find dbt (some criteria) db = Except.ok l → l ≠ []) := by
  have hlen : ¬(criteriaKeys criteria).length = 0 := by
    simp only [List.length_eq_zero]
    intro h
    exact hne (criteriaKeys_eq_nil h)
  constructor
  · intro hchk hrun
    rw [find_validated dbt db criteria hlen hchk, hrun]
    simp
  · intro hok
    by_cases hchk : checkKeys (criteriaKeys criteria) = true
    · rw [find_validated dbt db criteria hlen hchk] at hok
      split at hok
      · exact absurd hok (by simp)
      · rename_i rows hrows
        split at hok
        · exact absurd hok (by simp)
        · rename_i hlen2
          have hrl : rows = l := (Except.ok.injEq _ _).mp hok
          subst hrl
          simpa [← List.length_eq_zero] using hlen2
    · rw [Bool.not_eq_true] at hchk
      simp [find, hlen, hchk] at hok

/-- C7 witness: criteria matching nothing on a concrete store yield the
NotFound-class error, and the one successful query does not return an
empty list. -/
theorem C7_witness :
    checkKeys (criteriaKeys [(("preis" : String), Value.int 999)]) = true ∧
      runQuery (build "postgres" [("preis", Value.int 999)]) exampleDb =
        Except.ok [] ∧
      find "postgres" (some [("preis", Value.int 999)]) exampleDb =
        Except.error (Err.noResults [("preis", Value.int 999)]) :=
  ⟨by decide, by decide,
    (C7_zero_rows_not_found "postgres" exampleDb [("preis", Value.int 999)] []
        (by decide)).1 (by decide) (by decide)⟩

theorem versionPatternTest_iff (s : String) :
    versionPatternTest s = true ↔ StartsWithQuotedVersion s := by
  obtain ⟨l⟩ := s
  constructor
  · intro h
    rcases l with _ | ⟨c0, _ | ⟨c1, rest1⟩⟩
    · exact absurd h (by simp [versionPatternTest])
    · exact absurd h (by simp [versionPatternTest])
    · unfold versionPatternTest at h
      simp only [String.data] at h
      rw [Bool.and_assoc, Bool.and_eq_true, Bool.and_eq_true] at h
      obtain ⟨hc0, hc1, hrest⟩ := h
      have hc0' : c0 = '"' := by simpa using hc0
      subst hc0'
      rcases rest1 with _ | ⟨c2, rest2⟩
      · exact absurd hrest (by simp)
      · rw [Bool.or_eq_true] at hrest
        rcases hrest with hq | hrest
        · have hc2 : c2 = '"' := by simpa using hq
          subst hc2
          exact ⟨[c1], rest2, rfl, by simp, by simp, by simpa using hc1⟩
        · rw [Bool.and_eq_true] at hrest
          obtain ⟨hd2, hrest⟩ := hrest
          rcases rest2 with _ | ⟨c3, rest3⟩
          · exact absurd hrest (by simp)
          · rw [Bool.or_eq_true] at hrest
            rcases hrest with hq | hrest
            · have hc3 : c3 = '"' := by simpa using hq
              subst hc3
              refine ⟨[c1, c2], rest3, rfl, by simp, by simp, ?_⟩
              intro c hc
              rcases List.mem_cons.mp hc with rfl | hc
              · simpa using hc1
              · simp only [List.mem_singleton] at hc
                subst hc
                simpa using hd2
            · rw [Bool.and_eq_true] at hrest
              obtain ⟨hd3, hrest⟩ := hrest
              rcases rest3 with _ | ⟨c4, rest4⟩
              · exact absurd hrest (by simp)
              · have hc4 : c4 = '"' := by simpa using hrest
                subst hc4
                refine ⟨[c1, c2, c3], rest4, rfl, by simp, by simp, ?_⟩
                intro c hc
                rcases List.mem_cons.mp hc with rfl | hc
                · simpa using hc1
                · rcases List.mem_cons.mp hc with rfl | hc
                  · simpa using hd2
                  · simp only [List.mem_singleton] at hc
                    subst hc
                    simpa using hd3
  · rintro ⟨ds, tail, hdata, h1, h3, hdig⟩
    have hdata' : l = '"' :: (ds ++ '"' :: tail) := hdata
    subst hdata'
    rcases ds with _ | ⟨a, _ | ⟨b, _ | ⟨c, _ | ⟨d, ds'⟩⟩⟩⟩
    · exact absurd h1 (by simp)
    · simp [versionPatternTest, hdig a (by simp)]
    · simp [versionPatternTest, hdig a (by simp), hdig b (by simp)]
    · simp [versionPatternTest, hdig a (by simp), hdig b (by simp),
        hdig c (by simp)]
    · exact absurd h3 (by simp)

theorem exactVersionShape_start (s : String)
    (h : exactVersionShape s = true) : StartsWithQuotedVersion s := by
  obtain ⟨l⟩ := s
  rcases l with _ | ⟨c, rest⟩
  · exact absurd h (by simp [exactVersionShape])
  · unfold exactVersionShape at h
    simp only [String.data] at h
    rw [Bool.and_eq_true, Bool.and_eq_true, Bool.and_eq_true, Bool.and_eq_true] at h
    obtain ⟨⟨⟨⟨hc, hlast⟩, hlen1⟩, hlen3⟩, hdig⟩ := h
    have hc' : c = '"' := by simpa using hc
    subst hc'
    have hlast' : rest.getLast? = some '"' := by simpa using hlast
    have hne : rest ≠ [] := by
      intro habs
      rw [habs] at hlast'
      exact absurd hlast' (by simp)
    have hg : rest.getLast hne = '"' := by
      have hgl := List.getLast?_eq_getLast rest hne
      rw [hgl, Option.some.injEq] at hlast'
      exact hlast'
    have hrest : rest.dropLast ++ ['"'] = rest := by
      have h2 := List.dropLast_append_getLast hne
      rw [hg] at h2
      exact h2
    refine ⟨rest.dropLast, [], ?_, by simpa using hlen1, by simpa using hlen3, ?_⟩
    · exact congrArg (List.cons '"') hrest.symm
    · intro x hx
      exact (List.all_eq_true.mp hdig) x hx

/-- C1 counterexample: the token `"12"x` is *not* of the exact
quoted-integer shape the claim requires to be the only accepted form,
yet `update` does not fail with VersionInvalid — it succeeds — because
`VERSION_PATTERN` is anchored only at the start of the string. -/
theorem C1_counterexample :
    exactVersionShape "\"12\"x" = false ∧
      update (some 1) patchEmpty "\"12\"x" exampleDb ≠
        Except.error (Err.versionInvalid "\"12\"x") ∧
      (update (some 1) patchEmpty "\"12\"x" exampleDb).isOk = true :=
  ⟨by decide, by decide, by decide⟩

/-- C1 (amended): `update` fails with VersionInvalid if and only if the
token does not *begin* with an opening quote, one to three ASCII digits
and a closing quote — the pattern is anchored only at the start, so
arbitrary trailing characters after the closing quote are accepted. -/
theorem C1_versionInvalid_iff (db : DB) (i : Nat) (patch : Patch) (token : String) :
    update (some i) patch token db = Except.error (Err.versionInvalid token) ↔
      ¬ StartsWithQuotedVersion token := by
  rw [← versionPatternTest_iff]
  cases hp : versionPatternTest token with
  | false =>
      simp only [Bool.false_eq_true, not_false_iff, iff_true]
      simp [update, validateUpdate, hp]
  | true =>
      simp only [not_true_eq_false, iff_false]
      intro h
      unfold update validateUpdate at h
      rw [hp] at h
      simp only [Bool.not_true, Bool.false_eq_true, if_false] at h
      cases hf : findById i false db with
      | error e =>
          rw [hf] at h
          have he := findById_error_inv hf
          subst he
          simp at h
      | ok g =>
          rw [hf] at h
          cases hv : parseInt10 (sliceInner token) with
          | none =>
              rw [hv] at h
              simp at h
          | some v =>
              rw [hv] at h
              by_cases hlt : v < g.flugzeug.version
              · simp [hlt] at h
              · simp [hlt] at h

/-- C2: with a well-formed version token on an existing aircraft,
`update` fails with VersionOutdated exactly when the integer parsed from
the token is strictly less than the persisted version; a parsed version
equal to or greater than the persisted one passes the comparison and the
update proceeds. -/
theorem C2_versionOutdated_iff (db : DB) (i : Nat) (patch : Patch) (token : String)
    (g : Geladen) (v : Nat)
    (hshape : exactVersionShape token = true)
    (hfind : findById i false db = Except.ok g)
    (hv : parseInt10 (sliceInner token) = some v) :
    (update (some i) patch token db = Except.error (Err.versionOutdated v) ↔
      v < g.flugzeug.version) ∧
    (g.flugzeug.version ≤ v →
      ∃ r, update (some i) patch token db = Except.ok r) := by
  have hp : versionPatternTest token = true :=
    (versionPatternTest_iff token).mpr (exactVersionShape_start token hshape)
  unfold update validateUpdate
  rw [hp]
  simp only [Bool.not_true, Bool.false_eq_true, if_false]
  rw [hfind, hv]
  by_cases hlt : v < g.flugzeug.version
  · constructor
    · simp [hlt]
    · intro hle
      omega
  · constructor
    · simp [hlt]
    · intro _
      simp only [if_neg hlt]
      exact ⟨_, rfl⟩

/-- C2 witness: token `"0"` against persisted version 5 fails with
VersionOutdated, at the parsed version 0. -/
theorem C2_witness :
    exactVersionShape "\"0\"" = true ∧
      findById 1 false exampleDb5 = Except.ok
        { flugzeug := { id := 1, version := 5, preis := 100,
                        einsatzbereit := true, baujahr := some "2022-02-28" },
          modell := some { id := 10, modell := "Alpha", flugzeugId := 1 },
          sitzplaetze := none } ∧
      parseInt10 (sliceInner "\"0\"") = some 0 ∧
      update (some 1) patchEmpty "\"0\"" exampleDb5 =
        Except.error (Err.versionOutdated 0) :=
  ⟨by decide, by decide, by decide,
    ((C2_versionOutdated_iff exampleDb5 1 patchEmpty "\"0\""
        { flugzeug := { id := 1, version := 5, preis := 100,
                        einsatzbereit := true, baujahr := some "2022-02-28" },
          modell := some { id := 10, modell := "Alpha", flugzeugId := 1 },
          sitzplaetze := none } 0
        (by decide) (by decide) (by decide)).1).mpr (by decide)⟩

/-- C4 (code-bug evidence): for an id with no matching aircraft,
`delete` does not return false — the `findById` call it starts with
throws `NotFoundException`, which propagates out of `delete`,
contradicting the claim and the method's own doc comment
(`@returns ... Sonst false.`). -/
theorem C4_delete_absent_raises :
    delete 999999 exampleDb = Except.error (Err.notFoundId (some 999999)) ∧
      delete 999999 { flugzeugRows := [], modellRows := [], sitzplatzRows := [] } =
        Except.error (Err.notFoundId (some 999999)) :=
  ⟨by decide, by decide⟩

theorem update_some (i : Nat) (patch : Patch) (version : String) (db : DB) :
    update (some i) patch version db =
      match validateUpdate i version db with
      | Except.error e => Except.error e
      | Except.ok flugzeugDb =>
          Except.ok ((mergeSave flugzeugDb.flugzeug patch).version,
            { db with
                flugzeugRows := db.flugzeugRows.map fun r =>
                  if r.id == i then mergeSave flugzeugDb.flugzeug patch
                  else r }) := rfl

theorem validateUpdate_ok_findById {i : Nat} {token : String} {db : DB}
    {fdb : Geladen} (h : validateUpdate i token db = Except.ok fdb) :
    findById i false db = Except.ok fdb := by
  unfold validateUpdate at h
  split at h
  · exact absurd h (by simp)
  · split at h
    · exact absurd h (by simp)
    · rename_i g hg
      split at h
      · rw [hg, h]
      · split at h
        · exact absurd h (by simp)
        · rw [hg, h]

/-- C8: a successful `update` writes exactly the patch's present
root-level scalar fields onto the fetched current entity — absent
fields keep their committed values, the `modell` and `sitzplatz` tables
are untouched — and returns the storage-assigned new version (the old
persisted version plus one). -/
theorem C8_update_frame (db : DB) (i : Nat) (patch : Patch) (token : String)
    (g : Geladen) (v : Nat) (db' : DB)
    (hfind : findById i false db = Except.ok g)
    (hupd : update (some i) patch token db = Except.ok (v, db')) :
    v = g.flugzeug.version + 1 ∧
      db'.modellRows = db.modellRows ∧
      db'.sitzplatzRows = db.sitzplatzRows ∧
      db'.flugzeugRows = db.flugzeugRows.map fun r =>
        if r.id == i then
          { id := g.flugzeug.id, version := g.flugzeug.version + 1,
            preis := patch.preis.getD g.flugzeug.preis,
            einsatzbereit := patch.einsatzbereit.getD g.flugzeug.einsatzbereit,
            baujahr := patch.baujahr.or g.flugzeug.baujahr }
        else r := by
  rw [update_some] at hupd
  cases hval : validateUpdate i token db with
  | error e =>
      rw [hval] at hupd
      exact absurd hupd (by simp)
  | ok fdb =>
      rw [hval] at hupd
      have hfdb := validateUpdate_ok_findById hval
      rw [hfind] at hfdb
      have hg : fdb = g := ((Except.ok.injEq _ _).mp hfdb).symm
      rw [hg] at hupd
      simp only [Except.ok.injEq, Prod.mk.injEq] at hupd
      obtain ⟨hv', hdb'⟩ := hupd
      have hmerge : mergeSave g.flugzeug patch =
          { id := g.flugzeug.id, version := g.flugzeug.version + 1,
            preis := patch.preis.getD g.flugzeug.preis,
            einsatzbereit := patch.einsatzbereit.getD g.flugzeug.einsatzbereit,
            baujahr := patch.baujahr.or g.flugzeug.baujahr } := by
        cases hb : patch.baujahr <;> simp [mergeSave, hb, Option.or]
      refine ⟨?_, ?_, ?_, ?_⟩
      · rw [← hv', hmerge]
      · rw [← hdb']
      · rw [← hdb']
      · rw [← hdb']
        simp only [hmerge]

/-- C8 witness: patching only the price of the example aircraft leaves
model, seats and the unpatched scalars untouched and returns version 1. -/
theorem C8_witness :
    findById 1 false exampleDb = Except.ok
      { flugzeug := { id := 1, version := 0, preis := 100,
                      einsatzbereit := true, baujahr := some "2022-02-28" },
        modell := some { id := 10, modell := "Alpha", flugzeugId := 1 },
        sitzplaetze := none } ∧
    update (some 1) { preis := some 200, einsatzbereit := none, baujahr := none }
        "\"0\"" exampleDb =
      Except.ok (1,
        { flugzeugRows :=
            [{ id := 1, version := 1, preis := 200, einsatzbereit := true,
               baujahr := some "2022-02-28" }],
          modellRows := [{ id := 10, modell := "Alpha", flugzeugId := 1 }],
          sitzplatzRows :=
            [{ id := 21, sitzplatzklasse := "Klasse 1", flugzeugId := 1 },
             { id := 22, sitzplatzklasse := "Klasse 2", flugzeugId := 1 }] }) ∧
    (1 = 0 + 1 ∧
      ({ id := 10, modell := ("Alpha" : String), flugzeugId := 1 } :: []) =
        exampleDb.modellRows ∧
      exampleDb.sitzplatzRows = exampleDb.sitzplatzRows) :=
  ⟨by decide, by decide,
    by
      have h := C8_update_frame exampleDb 1
        { preis := some 200, einsatzbereit := none, baujahr := none } "\"0\""
        { flugzeug := { id := 1, version := 0, preis := 100,
                        einsatzbereit := true, baujahr := some "2022-02-28" },
          modell := some { id := 10, modell := "Alpha", flugzeugId := 1 },
          sitzplaetze := none } 1
        { flugzeugRows :=
            [{ id := 1, version := 1, preis := 200, einsatzbereit := true,
               baujahr := some "2022-02-28" }],
          modellRows := [{ id := 10, modell := "Alpha", flugzeugId := 1 }],
          sitzplatzRows :=
            [{ id := 21, sitzplatzklasse := "Klasse 1", flugzeugId := 1 },
             { id := 22, sitzplatzklasse := "Klasse 2", flugzeugId := 1 }] }
        (by decide) (by decide)
      exact ⟨h.1, h.2.1, h.2.2.1.symm ▸ rfl⟩⟩

theorem foldl_deleteStep_fst (ops : List DeleteOp) :
    ∀ p q : DB × Option Nat, p.1 = q.1 →
      (ops.foldl deleteStep p).1 = (ops.foldl deleteStep q).1 := by
  induction ops with
  | nil =>
      intro p q h
      simpa using h
  | cons op rest ih =>
      intro p q h
      rw [List.foldl_cons, List.foldl_cons]
      exact ih _ _ (by simp [deleteStep, h])

theorem applyOps_fst_cons (db : DB) (op : DeleteOp) (ops : List DeleteOp) :
    (applyOps db (op :: ops)).1 = (applyOps (applyOp db op).1 ops).1 := by
  unfold applyOps
  rw [List.foldl_cons]
  exact foldl_deleteStep_fst ops _ _ rfl

theorem applyOps_append_last (db : DB) (ops : List DeleteOp) (op : DeleteOp) :
    applyOps db (ops ++ [op]) =
      ((applyOp (applyOps db ops).1 op).1,
        some ((applyOp (applyOps db ops).1 op).2)) := by
  unfold applyOps
  rw [List.foldl_append]
  rfl

theorem applyOps_seats (ss : List SitzplatzRow) :
    ∀ db : DB,
      (applyOps db (ss.map fun s => DeleteOp.delSitzplatz s.id)).1.flugzeugRows =
          db.flugzeugRows ∧
        (applyOps db (ss.map fun s => DeleteOp.delSitzplatz s.id)).1.modellRows =
          db.modellRows ∧
        (applyOps db (ss.map fun s => DeleteOp.delSitzplatz s.id)).1.sitzplatzRows =
          db.sitzplatzRows.filter fun t => ss.all fun s => t.id ≠ s.id := by
  induction ss with
  | nil =>
      intro db
      refine ⟨rfl, rfl, ?_⟩
      show db.sitzplatzRows = _
      simp [List.all_nil, List.filter_true]
  | cons s rest ih =>
      intro db
      rw [List.map_cons, applyOps_fst_cons]
      obtain ⟨ihf, ihm, ihs⟩ := ih (applyOp db (DeleteOp.delSitzplatz s.id)).1
      refine ⟨ihf, ihm, ?_⟩
      rw [ihs]
      show (db.sitzplatzRows.filter fun t => t.id ≠ s.id).filter _ = _
      rw [List.filter_filter]
      apply List.filter_congr
      intro t _
      simp only [List.all_cons, Bool.and_comm]

theorem delete_ok_eq (i : Nat) (db : DB) (g : Geladen)
    (h : findById i true db = Except.ok g) :
    delete i db =
      Except.ok
        ((match (applyOps db (deleteOps g i)).2 with
          | some n => decide (n > 0)
          | none => false),
         (applyOps db (deleteOps g i)).1, deleteOps g i) := by
  unfold delete
  rw [h]

/-- C5: deleting an existing aircraft runs — inside one transaction,
modelled as a single pure state transformation — first the `Modell`
deletion, then one deletion per loaded seat, then the `Flugzeug`
deletion, in that order; it returns true because the final aircraft-row
deletion affects at least one row, and afterwards no model row, seat row
or aircraft row of the deleted aircraft persists.  `hOwn` is the 1:1
ownership invariant of the store (every model row pointing at this
aircraft is the joined one). -/
theorem C5_delete_cascade (db : DB) (i : Nat) (g : Geladen) (m : ModellRow)
    (hfind : findById i true db = Except.ok g)
    (hm : g.modell = some m)
    (hOwn : ∀ m' ∈ db.modellRows, m'.flugzeugId = i → m'.id = m.id) :
    ∃ db', delete i db = Except.ok (true, db', deleteOps g i) ∧
      deleteOps g i =
        DeleteOp.delModell m.id ::
          (((g.sitzplaetze.getD []).map fun s => DeleteOp.delSitzplatz s.id) ++
            [DeleteOp.delFlugzeug i]) ∧
      (∀ m' ∈ db'.modellRows, m'.flugzeugId ≠ i) ∧
      (∀ s ∈ db'.sitzplatzRows, s.flugzeugId ≠ i) ∧
      (∀ f ∈ db'.flugzeugRows, f.id ≠ i) := by
  obtain ⟨r, hr, hgf, hgm, hgs⟩ := findById_ok_inv hfind
  have hmr : m = r.modell := by
    rw [hm] at hgm
    exact (Option.some.injEq _ _).mp hgm
  have hseats : g.sitzplaetze =
      some (db.sitzplatzRows.filter fun s => s.flugzeugId == i) := by
    simpa using hgs
  have hrmem : r ∈ joinModell db := List.mem_of_find?_eq_some hr
  have hrid : r.flugzeug.id = i := by
    have hp := List.find?_some hr
    simpa using hp
  obtain ⟨f0, hf0mem, hf0eq⟩ := List.mem_filterMap.mp hrmem
  rw [Option.map_eq_some'] at hf0eq
  obtain ⟨m0, hm0find, hm0eq⟩ := hf0eq
  have hf0 : f0 = r.flugzeug := congrArg JoinedRow.flugzeug hm0eq
  have hops : deleteOps g i =
      DeleteOp.delModell m.id ::
        (((db.sitzplatzRows.filter fun s => s.flugzeugId == i).map
            fun s => DeleteOp.delSitzplatz s.id) ++ [DeleteOp.delFlugzeug i]) := by
    unfold deleteOps
    rw [hm, hseats]
    rfl
  have hfmem : r.flugzeug ∈ db.flugzeugRows := hf0 ▸ hf0mem
  -- components of the store after the modell deletion
  have hXf : (applyOp db (DeleteOp.delModell m.id)).1.flugzeugRows =
      db.flugzeugRows := rfl
  have hXm : (applyOp db (DeleteOp.delModell m.id)).1.modellRows =
      db.modellRows.filter fun m' => m'.id ≠ m.id := rfl
  have hXs : (applyOp db (DeleteOp.delModell m.id)).1.sitzplatzRows =
      db.sitzplatzRows := rfl
  obtain ⟨hDf, hDm, hDs⟩ :=
    applyOps_seats (db.sitzplatzRows.filter fun s => s.flugzeugId == i)
      (applyOp db (DeleteOp.delModell m.id)).1
  rw [hXf] at hDf
  rw [hXm] at hDm
  rw [hXs] at hDs
  have hpos : 0 < (db.flugzeugRows.filter fun f => f.id = i).length := by
    have hmemf : r.flugzeug ∈ db.flugzeugRows.filter fun f => f.id = i :=
      List.mem_filter.mpr ⟨hfmem, by simp [hrid]⟩
    exact List.length_pos.mpr (List.ne_nil_of_mem hmemf)
  refine ⟨{ flugzeugRows := db.flugzeugRows.filter fun f => f.id ≠ i,
            modellRows := db.modellRows.filter fun m' => m'.id ≠ m.id,
            sitzplatzRows := db.sitzplatzRows.filter fun t =>
              (db.sitzplatzRows.filter fun s => s.flugzeugId == i).all
                fun s => t.id ≠ s.id },
          ?_, by rw [hops, hseats]; rfl, ?_, ?_, ?_⟩
  · rw [delete_ok_eq i db g hfind, hops]
    rw [show DeleteOp.delModell m.id ::
        (((db.sitzplatzRows.filter fun s => s.flugzeugId == i).map
            fun s => DeleteOp.delSitzplatz s.id) ++ [DeleteOp.delFlugzeug i]) =
      (DeleteOp.delModell m.id ::
        ((db.sitzplatzRows.filter fun s => s.flugzeugId == i).map
            fun s => DeleteOp.delSitzplatz s.id)) ++ [DeleteOp.delFlugzeug i]
      from rfl]
    rw [applyOps_append_last]
    rw [applyOps_fst_cons db (DeleteOp.delModell m.id)
      ((db.sitzplatzRows.filter fun s => s.flugzeugId == i).map
        fun s => DeleteOp.delSitzplatz s.id)]
    simp only [applyOp] at hDf hDm hDs ⊢
    simp only [hDf, hDm, hDs]
    have hgt : (db.flugzeugRows.filter fun f => f.id = i).length > 0 := hpos
    simp only [decide_eq_true hgt]
  · intro m' hmem heq
    obtain ⟨hm'db, hm'ne⟩ := List.mem_filter.mp hmem
    have : m'.id = m.id := hOwn m' hm'db heq
    simp [this] at hm'ne
  · intro s hmem heq
    obtain ⟨hsdb, hall⟩ := List.mem_filter.mp hmem
    have hsseat : s ∈ db.sitzplatzRows.filter fun t => t.flugzeugId == i :=
      List.mem_filter.mpr ⟨hsdb, by simp [heq]⟩
    have := List.all_eq_true.mp hall s hsseat
    simp at this
  · intro f hmem heq
    obtain ⟨_, hne⟩ := List.mem_filter.mp hmem
    simp [heq] at hne

/-- C5 witness: deleting the example aircraft (model id 10, seats 21 and
22) issues the statements in the claimed order, returns true, and leaves
no owned row behind. -/
theorem C5_witness :
    (findById 1 true exampleDb = Except.ok
      { flugzeug := { id := 1, version := 0, preis := 100,
                      einsatzbereit := true, baujahr := some "2022-02-28" },
        modell := some { id := 10, modell := "Alpha", flugzeugId := 1 },
        sitzplaetze := some
          [{ id := 21, sitzplatzklasse := "Klasse 1", flugzeugId := 1 },
           { id := 22, sitzplatzklasse := "Klasse 2", flugzeugId := 1 }] }) ∧
    (∃ db', delete 1 exampleDb =
        Except.ok (true, db',
          deleteOps
            { flugzeug := { id := 1, version := 0, preis := 100,
                            einsatzbereit := true, baujahr := some "2022-02-28" },
              modell := some { id := 10, modell := "Alpha", flugzeugId := 1 },
              sitzplaetze := some
                [{ id := 21, sitzplatzklasse := "Klasse 1", flugzeugId := 1 },
                 { id := 22, sitzplatzklasse := "Klasse 2", flugzeugId := 1 }] } 1) ∧
      deleteOps
          { flugzeug := { id := 1, version := 0, preis := 100,
                          einsatzbereit := true, baujahr := some "2022-02-28" },
            modell := some { id := 10, modell := "Alpha", flugzeugId := 1 },
            sitzplaetze := some
              [{ id := 21, sitzplatzklasse := "Klasse 1", flugzeugId := 1 },
               { id := 22, sitzplatzklasse := "Klasse 2", flugzeugId := 1 }] } 1 =
        DeleteOp.delModell 10 ::
          ([DeleteOp.delSitzplatz 21, DeleteOp.delSitzplatz 22] ++
            [DeleteOp.delFlugzeug 1]) ∧
      (∀ m' ∈ db'.modellRows, m'.flugzeugId ≠ 1) ∧
      (∀ s ∈ db'.sitzplatzRows, s.flugzeugId ≠ 1) ∧
      (∀ f ∈ db'.flugzeugRows, f.id ≠ 1)) :=
  ⟨by decide,
    C5_delete_cascade exampleDb 1
      { flugzeug := { id := 1, version := 0, preis := 100,
                      einsatzbereit := true, baujahr := some "2022-02-28" },
        modell := some { id := 10, modell := "Alpha", flugzeugId := 1 },
        sitzplaetze := some
          [{ id := 21, sitzplatzklasse := "Klasse 1", flugzeugId := 1 },
           { id := 22, sitzplatzklasse := "Klasse 2", flugzeugId := 1 }] }
      { id := 10, modell := "Alpha", flugzeugId := 1 }
      (by decide) (by decide) (by decide)⟩

end Flugzeugserver
